import Mathlib

/-
Shallow embedding of `feature_extraction/audio_preprocessing.py`.

Samples are modelled as rationals (ℚ); tensors and numpy arrays as nested
lists, time-major exactly as in the source.  External collaborators
(the torchaudio loader/resampler, the ffmpeg probe, the crema chord model) are
modelled by passing their outputs as explicit arguments, and side effects on
the filesystem (the cache file read by `process_crema`) by explicit state
passing.
-/

namespace AudioPreprocessing

/-- `TARGET_SR = 22050` from the source module. -/
def TARGET_SR : ℕ := 22050

/-- `MAX_LEN = 100` from the source module. -/
def MAX_LEN : ℕ := 100

/-- The mono-mixing step of `preprocess_audio`: a multi-channel waveform is a
list of channels (tensor shape `[channels, samples]`).  The source averages
the channels (`waveform.mean(dim=0)`) only when `waveform.size(0) > 1`;
a single channel is passed through. -/
def monoMix (cs : List (List ℚ)) : List ℚ :=
  if 1 < cs.length then
    (List.range (cs.headD []).length).map
      (fun i => ((cs.map (fun c => c.getD i 0)).sum) / (cs.length : ℚ))
  else cs.headD []

/-- The duration clamp of `preprocess_audio` / `preprocess_audio_coverhunter`:
truncate to `maxSamples` when strictly longer (`waveform.size(1) > max_samples`),
otherwise zero-pad at the end to exactly `maxSamples`. -/
def clampPad (w : List ℚ) (maxSamples : ℕ) : List ℚ :=
  if maxSamples < w.length then w.take maxSamples
  else w ++ List.replicate (maxSamples - w.length) 0

/-- `preprocess_audio(file_path, target_sr, max_len)` after the external load
and resample: the argument `cs` is the resampled multi-channel waveform.
The function mono-mixes and clamps/pads to `target_sr * max_len` samples,
returning the squeezed 1-D tensor. -/
def preprocess_audio (cs : List (List ℚ)) (target_sr : ℕ := TARGET_SR)
    (max_len : ℕ := MAX_LEN) : List ℚ :=
  clampPad (monoMix cs) (target_sr * max_len)

/-- `np.max(np.abs(waveform_np))` folded with `0` as the base so it is total
on the empty list (the source always applies it to `max_samples` samples). -/
def peakAbs (w : List ℚ) : ℚ :=
  (w.map (fun x => |x|)).foldr max 0

/-- The normalization denominator of `preprocess_audio_coverhunter`:
`max(0.001, np.max(np.abs(waveform_np)))`. -/
def normDenom (w : List ℚ) : ℚ :=
  max (1/1000) (peakAbs w)

/-- The amplitude normalization of `preprocess_audio_coverhunter`:
`waveform_np / max(0.001, np.max(np.abs(waveform_np))) * 0.999`. -/
def coverhunterNormalize (w : List ℚ) : List ℚ :=
  w.map (fun x => x / normDenom w * (999/1000))

/-- The waveform `preprocess_audio_coverhunter(file_path, target_sr, max_len)`
hands to `extract_features_cqt`: resample (external; `cs` is its output),
mono-mix, clamp/pad to `target_sr * max_len`, then amplitude-normalize. -/
def preprocess_audio_coverhunter_pre_cqt (cs : List (List ℚ))
    (target_sr : ℕ := 16000) (max_len : ℕ := 100) : List ℚ :=
  coverhunterNormalize (clampPad (monoMix cs) (target_sr * max_len))

/-- One entry of `probe["streams"]`: only the `codec_type` key is consulted
(`stream.get("codec_type")`, absent modelled as `none`). -/
structure StreamInfo where
  codec_type : Option String
deriving DecidableEq

/-- `probe["format"]`: the `duration` and `size` keys, each possibly absent
(`format_info.get("duration", 0)` / `format_info.get("size", 0)`).
`size` is in bytes, as ffprobe reports it. -/
structure ProbeFormat where
  duration : Option ℚ
  size : Option ℚ
deriving DecidableEq

/-- The result of a successful `ffmpeg.probe`: `probe.get("format", {})`
(absent modelled as `none`) and `probe.get("streams", [])`. -/
structure ProbeResult where
  format : Option ProbeFormat
  streams : List StreamInfo
deriving DecidableEq

/-- `float(format_info.get("duration", 0))`: an absent format dict or an
absent duration key yields `0`. -/
def probeDuration (pr : ProbeResult) : ℚ :=
  ((pr.format.bind ProbeFormat.duration).getD 0)

/-- `float(format_info.get("size", 0)) / (1024 * 1024)`: the probed size in
megabytes, with an absent field treated as `0`. -/
def probeSizeMB (pr : ProbeResult) : ℚ :=
  ((pr.format.bind ProbeFormat.size).getD 0) / (1024 * 1024)

/-- `InvalidMediaFileError` from the source. -/
inductive MediaError where
  | invalidMediaFile (msg : String)
deriving DecidableEq

/-- Python `str.rfind`: index of the last occurrence of `c`, or `-1`. -/
def rfindIdx (l : List Char) (c : Char) : Int :=
  match l.reverse.findIdx? (fun x => x == c) with
  | none => -1
  | some j => ((l.length - 1 - j : ℕ) : Int)

/-- `os.path.splitext(p)[0]` (posix flavour): split off the extension at the
last dot, provided that dot lies after the last path separator and the
basename does not consist solely of leading dots up to it. -/
def splitextRootList (l : List Char) : List Char :=
  let sepIndex := rfindIdx l '/'
  let dotIndex := rfindIdx l '.'
  if sepIndex < dotIndex then
    let d := dotIndex.toNat
    let s := (sepIndex + 1).toNat
    if (List.range' s (d - s)).any (fun i => l.getD i '.' != '.') then
      l.take d
    else l
  else l

/-- `os.path.splitext(filepath)[0]` on strings. -/
def splitextRoot (p : String) : String :=
  String.mk (splitextRootList p.data)

/-- `validate_audio(filepath)`.  The external `ffmpeg.probe` is modelled by
the argument `probe`: `none` when probing raised `ffmpeg.Error`, otherwise
the probe dictionary.  The transcode invoked on the no-audio-stream path is
external and modelled as succeeding (it writes `<basename>.wav` and the
function returns that path).  The `Except.error` constructor models the
`raise InvalidMediaFileError` statement. -/
def validate_audio (filepath : String) (probe : Option ProbeResult) :
    Except MediaError (Option String × Option String) :=
  match probe with
  | none => Except.error (MediaError.invalidMediaFile
      "The file is not a valid media file or cannot be processed.")
  | some pr =>
    if probeSizeMB pr > 100 then
      Except.ok (none, some "File is too large (over 100MB).")
    else if probeDuration pr > 20 * 60 then
      Except.ok (none, some "File is too long (over 20 minutes).")
    else
      if (pr.streams.filter (fun s => s.codec_type == some "audio")).length > 0 then
        Except.ok (some filepath, none)
      else
        Except.ok (some (splitextRoot filepath ++ ".wav"), none)

/-- The output of the external crema `ChordModel` on one waveform: the
`chord_pitch` field (shape `[native_frames, 12]`) and the `chord_bass`
field, whose length sets the native time grid in `crema`. -/
structure ChordModelOutput where
  chord_pitch : List (List ℚ)
  chord_bass : List ℚ
deriving DecidableEq

/-- Scipy `interp1d(times_orig, y, kind="nearest", fill_value="extrapolate")`
evaluated at time `t`, for the increasing grid `times_orig = fac * arange n`:
the chosen source index is the number of midpoints
`(fac*i + fac*(i+1))/2` strictly below `t` (ties resolve to the lower
index, matching the scipy `side="left"` search over midpoints). -/
def nearestIdx (fac : ℚ) (n : ℕ) (t : ℚ) : ℕ :=
  ((List.range (n - 1)).filter
    (fun (i : ℕ) =>
      decide ((fac * (i : ℚ) + fac * ((i : ℚ) + 1)) / 2 < t))).length

/-- `crema(audio_file, fs, hop_length)` after the external mono load and
chord model: `audioLen` is `audio_vector.size` and `out` the model output.
`none` models the exceptions scipy raises when the native grid is empty
(`interp1d` requires at least one sample point for `kind="nearest"`) or when
`chord_pitch` and the grid built from `chord_bass` disagree in length;
otherwise the result is the `[nwins, 12]` matrix
`interp(times_new).T` with `nwins = floor(audioLen / hop_length)`. -/
def crema (audioLen : ℕ) (out : ChordModelOutput) (fs : ℚ := 44100)
    (hop_length : ℕ := 512) : Option (List (List ℚ)) :=
  let fac : ℚ := fs / 44100 * 4096 / (hop_length : ℚ)
  let n := out.chord_bass.length
  let nwins := audioLen / hop_length
  if n = 0 ∨ out.chord_pitch.length ≠ n then none
  else
    some ((List.range nwins).map
      (fun (j : ℕ) => out.chord_pitch.getD (nearestIdx fac n (j : ℚ)) []))

/-- The serialized object `torch.load` yields from the cache file:
`{"data": [...], "labels": [...]}`. -/
structure CacheFile where
  data : List (List (List (List ℚ)))
  labels : List String
deriving DecidableEq

/-- `np.arange(0, n, s)` for stride `s > 0`: the `⌈n / s⌉` multiples of `s`
below `n`. -/
def strideIdxs (n s : ℕ) : List ℕ :=
  (List.range ((n + s - 1) / s)).map (fun i => i * s)

/-- Numpy transpose of an `[k, 12]` array (rows of length 12) into `[12, k]`. -/
def transpose12 (m : List (List ℚ)) : List (List ℚ) :=
  (List.range 12).map (fun c => m.map (fun row => row.getD c 0))

/-- `process_crema(audio_path, output_dir, output_file_pt)`.  The cache file
at the keyed output path is the explicit state `store` (`none` when
`os.path.exists` is false).  The function reads the cache into
`data_list` / `labels_list`, computes `crema(audio_path)` (with its default
`fs = 44100`, `hop_length = 512`), subsamples every 8th frame, transposes,
concatenates the `[12, k]` tensor with itself, truncates to 23 rows and
unsqueezes.  It returns the tensor together with the final state of the
store; the first component is `none` when `crema` raised. -/
def process_crema (audioLen : ℕ) (out : ChordModelOutput)
    (store : Option CacheFile) :
    Option (List (List (List ℚ))) × Option CacheFile :=
  let data_list : List (List (List (List ℚ))) :=
    match store with
    | none => []
    | some t => t.data
  let labels_list : List String :=
    match store with
    | none => []
    | some t => t.labels
  match crema audioLen out 44100 512 with
  | none => (none, store)
  | some temp_crema =>
    let idxs := strideIdxs temp_crema.length 8
    let temp_tensor := transpose12 (idxs.map (fun i => temp_crema.getD i []))
    (some [(temp_tensor ++ temp_tensor).take 23], store)

/-- A probed file exceeding both limits: 1300 seconds long and
`200 * 1024 * 1024` bytes (200 MB). -/
def bigLongProbe : ProbeResult :=
  ⟨some ⟨some 1300, some (200 * 1024 * 1024)⟩, []⟩

/-- A probed file over the size limit only (200 MB, 60 seconds). -/
def oversizeProbe : ProbeResult :=
  ⟨some ⟨some 60, some (200 * 1024 * 1024)⟩, []⟩

/-- A probed file over the duration limit only (1300 seconds, 1024 bytes). -/
def overlongProbe : ProbeResult :=
  ⟨some ⟨some 1300, some 1024⟩, []⟩

/-- A small probed file containing one audio stream. -/
def audioProbe : ProbeResult :=
  ⟨some ⟨some 60, some 1024⟩, [⟨some "audio"⟩]⟩

/-- A small probed file with a single video stream and no audio stream. -/
def videoProbe : ProbeResult :=
  ⟨some ⟨some 60, some 1024⟩, [⟨some "video"⟩]⟩

/-- A probed file whose format metadata has neither `duration` nor `size`. -/
def missingFieldsProbe : ProbeResult :=
  ⟨some ⟨none, none⟩, [⟨some "audio"⟩]⟩

/-- A probed file of exactly 100 MB (`100 * 1024 * 1024` bytes) and exactly
1200 seconds. -/
def boundaryProbe : ProbeResult :=
  ⟨some ⟨some 1200, some (100 * 1024 * 1024)⟩, [⟨some "audio"⟩]⟩

/-- A chord-model output with a single native frame: one 12-dimensional
zero pitch-class row and a one-element `chord_bass`. -/
def oneFrameChord : ChordModelOutput :=
  ⟨[List.replicate 12 0], [0]⟩

/-- The silent two-sample stereo input used to witness C5. -/
def silentInput : List (List ℚ) := [[0, 0]]

/-- A short mono input used to witness C2 (three samples, pad branch). -/
def shortInput : List (List ℚ) := [[1, 2, 3]]

/-- A long mono input used to witness C2 (five samples, truncation branch). -/
def longInput : List (List ℚ) := [[1, 2, 3, 4, 5]]

end AudioPreprocessing

deriving instance DecidableEq for Except

namespace AudioPreprocessing

lemma abs_le_peakAbs {w : List ℚ} {x : ℚ} (hx : x ∈ w) : |x| ≤ peakAbs w := by
  induction w with
  | nil => cases hx
  | cons a l ih =>
    rcases List.mem_cons.mp hx with h | h
    · subst h
      simp [peakAbs]
    · calc |x| ≤ peakAbs l := ih h
        _ ≤ peakAbs (a :: l) := by
          simp [peakAbs]

lemma normDenom_pos (w : List ℚ) : 0 < normDenom w :=
  lt_of_lt_of_le (by norm_num) (le_max_left (1/1000) (peakAbs w))

lemma peakAbs_le_normDenom (w : List ℚ) : peakAbs w ≤ normDenom w :=
  le_max_right (1/1000) (peakAbs w)

lemma clampPad_length (w : List ℚ) (m : ℕ) : (clampPad w m).length = m := by
  unfold clampPad
  split_ifs with h
  · simp [List.length_take, min_eq_left (le_of_lt h)]
  · simp [List.length_append, List.length_replicate]
    omega

lemma clampPad_of_le {w : List ℚ} {m : ℕ} (h : w.length ≤ m) :
    clampPad w m = w ++ List.replicate (m - w.length) 0 := by
  unfold clampPad
  rw [if_neg (by omega)]

lemma clampPad_of_lt {w : List ℚ} {m : ℕ} (h : m < w.length) :
    clampPad w m = w.take m := by
  unfold clampPad
  rw [if_pos h]

/-- C2: `preprocess_audio` returns exactly `target_sr * max_len` samples of
the mono-mixed resampled waveform: when the waveform fits, it is returned
zero-padded at the tail to exactly that length; when it is longer, the
first `target_sr * max_len` samples are returned. -/
theorem preprocess_audio_fixed_length (cs : List (List ℚ)) (target_sr max_len : ℕ) :
    (preprocess_audio cs target_sr max_len).length = target_sr * max_len ∧
    ((monoMix cs).length ≤ target_sr * max_len →
      preprocess_audio cs target_sr max_len =
        monoMix cs ++ List.replicate (target_sr * max_len - (monoMix cs).length) 0) ∧
    (target_sr * max_len < (monoMix cs).length →
      preprocess_audio cs target_sr max_len = (monoMix cs).take (target_sr * max_len)) :=
  ⟨clampPad_length _ _, fun h => clampPad_of_le h, fun h => clampPad_of_lt h⟩

/-- Witness for C2 at concrete inputs: a three-sample waveform is padded
with one trailing zero to `2 * 2 = 4` samples, and a five-sample waveform
is truncated to its first four samples. -/
theorem preprocess_audio_fixed_length_witness :
    (monoMix shortInput).length ≤ 2 * 2 ∧
    (2 * 2 < (monoMix longInput).length) ∧
    preprocess_audio shortInput 2 2 =
      monoMix shortInput ++ List.replicate (2 * 2 - (monoMix shortInput).length) 0 ∧
    preprocess_audio longInput 2 2 = (monoMix longInput).take (2 * 2) :=
  ⟨by decide, by decide,
   (preprocess_audio_fixed_length shortInput 2 2).2.1 (by decide),
   (preprocess_audio_fixed_length longInput 2 2).2.2 (by decide)⟩

/-- C5: the waveform `preprocess_audio_coverhunter` passes to the
constant-Q transform has peak absolute value at most `0.999`, and the
normalization denominator is at least `0.001`, hence positive even on an
all-zero (silent) waveform, so the division is never by zero. -/
theorem coverhunter_normalized_peak_bound (cs : List (List ℚ)) (target_sr max_len : ℕ) :
    0 < normDenom (clampPad (monoMix cs) (target_sr * max_len)) ∧
    ∀ x ∈ preprocess_audio_coverhunter_pre_cqt cs target_sr max_len, |x| ≤ 999/1000 := by
  refine ⟨normDenom_pos _, ?_⟩
  intro x hx
  unfold preprocess_audio_coverhunter_pre_cqt coverhunterNormalize at hx
  set w := clampPad (monoMix cs) (target_sr * max_len) with hw
  rcases List.mem_map.mp hx with ⟨y, hy, rfl⟩
  have hd : 0 < normDenom w := normDenom_pos w
  have hyd : |y| ≤ normDenom w :=
    le_trans (abs_le_peakAbs hy) (peakAbs_le_normDenom w)
  have h1 : |y| / normDenom w ≤ 1 := (div_le_one hd).mpr hyd
  have habs : |y / normDenom w * (999/1000)| = |y| / normDenom w * (999/1000) := by
    rw [abs_mul, abs_div, abs_of_pos hd]
    norm_num
  rw [habs]
  calc |y| / normDenom w * (999/1000) ≤ 1 * (999/1000) := by
        exact mul_le_mul_of_nonneg_right h1 (by norm_num)
    _ = 999/1000 := one_mul _

/-- Witness for C5 at the silent input: the denominator is positive and
every normalized sample is bounded by `0.999`. -/
theorem coverhunter_normalized_peak_bound_witness :
    0 < normDenom (clampPad (monoMix silentInput) (1 * 2)) ∧
    ∀ x ∈ preprocess_audio_coverhunter_pre_cqt silentInput 1 2, |x| ≤ 999/1000 :=
  coverhunter_normalized_peak_bound silentInput 1 2

/-- C3 counterexample: at a successfully probed file whose duration (1300 s)
exceeds 1200 seconds but whose size also exceeds 100 MB, `validate_audio`
returns the too-large result, whose message moreover carries a trailing
period; it does not return the too-long result the claim states (neither
with nor without the period), so the duration clause of the claim fails here. -/
theorem validate_audio_duration_clause_false :
    (1200 : ℚ) < probeDuration bigLongProbe ∧
    validate_audio "song.mp3" (some bigLongProbe) =
      Except.ok (none, some "File is too large (over 100MB).") ∧
    (Except.ok (none, some "File is too large (over 100MB).") :
        Except MediaError (Option String × Option String)) ≠
      Except.ok (none, some "File is too long (over 20 minutes)") ∧
    (Except.ok (none, some "File is too large (over 100MB).") :
        Except MediaError (Option String × Option String)) ≠
      Except.ok (none, some "File is too long (over 20 minutes).") :=
  ⟨by norm_num [probeDuration, bigLongProbe],
   by norm_num [validate_audio, probeSizeMB, probeDuration, bigLongProbe],
   by decide, by decide⟩

/-- C3 (amended): a successfully probed file whose size exceeds 100 MB is
rejected with `(None, "File is too large (over 100MB).")`, and one within
the size limit whose duration exceeds 1200 seconds is rejected with
`(None, "File is too long (over 20 minutes).")`; neither case raises. -/
theorem validate_audio_limit_rejections (fp : String) (pr : ProbeResult) :
    (100 < probeSizeMB pr →
      validate_audio fp (some pr) =
        Except.ok (none, some "File is too large (over 100MB).")) ∧
    (probeSizeMB pr ≤ 100 → (1200 : ℚ) < probeDuration pr →
      validate_audio fp (some pr) =
        Except.ok (none, some "File is too long (over 20 minutes).")) := by
  constructor
  · intro h
    simp only [validate_audio]
    rw [if_pos h]
  · intro h1 h2
    simp only [validate_audio]
    rw [if_neg (not_lt.mpr h1), if_pos (by norm_num; exact h2)]

/-- Witness for C3 (amended) at concrete probes: a 200 MB file is rejected
as too large, and a 1300-second file of 1024 bytes as too long. -/
theorem validate_audio_limit_rejections_witness :
    100 < probeSizeMB oversizeProbe ∧
    probeSizeMB overlongProbe ≤ 100 ∧ (1200 : ℚ) < probeDuration overlongProbe ∧
    validate_audio "a.mp3" (some oversizeProbe) =
      Except.ok (none, some "File is too large (over 100MB).") ∧
    validate_audio "a.mp3" (some overlongProbe) =
      Except.ok (none, some "File is too long (over 20 minutes).") :=
  ⟨by norm_num [probeSizeMB, oversizeProbe],
   by norm_num [probeSizeMB, overlongProbe],
   by norm_num [probeDuration, overlongProbe],
   (validate_audio_limit_rejections "a.mp3" oversizeProbe).1
     (by norm_num [probeSizeMB, oversizeProbe]),
   (validate_audio_limit_rejections "a.mp3" overlongProbe).2
     (by norm_num [probeSizeMB, overlongProbe])
     (by norm_num [probeDuration, overlongProbe])⟩

/-- C6: `validate_audio` raises (its `Except.error` case, carrying the
domain-specific `InvalidMediaFileError`) exactly when the probe failed,
i.e. when the file could not be parsed as media at all; on every
successfully probed file it returns a value instead. -/
theorem validate_audio_error_iff_probe_failed (fp : String)
    (probe : Option ProbeResult) :
    (∃ e, validate_audio fp probe = Except.error e) ↔ probe = none := by
  cases probe with
  | none => simp [validate_audio]
  | some pr =>
    simp only [validate_audio]
    constructor
    · rintro ⟨e, he⟩
      split_ifs at he
    · intro h
      cases h

/-- Witness for C6: on a failed probe the validator raises; on a probed
audio file it does not. -/
theorem validate_audio_error_iff_probe_failed_witness :
    ((∃ e, validate_audio "a.mp3" none = Except.error e) ↔
      (none : Option ProbeResult) = none) ∧
    ((∃ e, validate_audio "a.mp3" (some audioProbe) = Except.error e) ↔
      (some audioProbe = none)) :=
  ⟨validate_audio_error_iff_probe_failed "a.mp3" none,
   validate_audio_error_iff_probe_failed "a.mp3" (some audioProbe)⟩

/-- C7: on a successfully probed file within both limits, `validate_audio`
returns the original path unchanged (no error) when some stream has codec
type `audio`, and otherwise returns the sibling path obtained by replacing
the extension of the basename with `.wav` (no error). -/
theorem validate_audio_within_limits (fp : String) (pr : ProbeResult)
    (hsize : probeSizeMB pr ≤ 100) (hdur : probeDuration pr ≤ 1200) :
    (0 < (pr.streams.filter (fun s => s.codec_type == some "audio")).length →
      validate_audio fp (some pr) = Except.ok (some fp, none)) ∧
    ((pr.streams.filter (fun s => s.codec_type == some "audio")).length = 0 →
      validate_audio fp (some pr) =
        Except.ok (some (splitextRoot fp ++ ".wav"), none)) := by
  have h1 : ¬ probeSizeMB pr > 100 := not_lt.mpr hsize
  have h2 : ¬ probeDuration pr > 20 * 60 := by norm_num; exact hdur
  constructor
  · intro h
    simp only [validate_audio]
    rw [if_neg h1, if_neg h2, if_pos h]
  · intro h
    simp only [validate_audio]
    rw [if_neg h1, if_neg h2, if_neg (by omega)]

/-- Witness for C7: a probed audio file keeps its path, and the pure-video
file `video.mp4` is mapped to `video.wav`. -/
theorem validate_audio_within_limits_witness :
    probeSizeMB audioProbe ≤ 100 ∧ probeDuration audioProbe ≤ 1200 ∧
    probeSizeMB videoProbe ≤ 100 ∧ probeDuration videoProbe ≤ 1200 ∧
    validate_audio "a.mp3" (some audioProbe) = Except.ok (some "a.mp3", none) ∧
    validate_audio "video.mp4" (some videoProbe) =
      Except.ok (some (splitextRoot "video.mp4" ++ ".wav"), none) ∧
    splitextRoot "video.mp4" ++ ".wav" = "video.wav" :=
  ⟨by norm_num [probeSizeMB, audioProbe],
   by norm_num [probeDuration, audioProbe],
   by norm_num [probeSizeMB, videoProbe],
   by norm_num [probeDuration, videoProbe],
   (validate_audio_within_limits "a.mp3" audioProbe
     (by norm_num [probeSizeMB, audioProbe])
     (by norm_num [probeDuration, audioProbe])).1 (by decide),
   (validate_audio_within_limits "video.mp4" videoProbe
     (by norm_num [probeSizeMB, videoProbe])
     (by norm_num [probeDuration, videoProbe])).2 (by decide),
   by decide⟩

/-- C10: a successfully probed file whose format metadata lacks the `size`
(resp. `duration`) field is treated as size (resp. duration) `0`, so it is
never rejected on that limit; and because the comparisons are strict, a
file of exactly `100 * 1024 * 1024` bytes (100 MB) or of exactly 1200
seconds is not rejected either. -/
theorem validate_audio_missing_or_boundary (fp : String) (pr : ProbeResult) :
    (pr.format.bind ProbeFormat.size = none →
      validate_audio fp (some pr) ≠
        Except.ok (none, some "File is too large (over 100MB).")) ∧
    (pr.format.bind ProbeFormat.duration = none →
      validate_audio fp (some pr) ≠
        Except.ok (none, some "File is too long (over 20 minutes).")) ∧
    (pr.format.bind ProbeFormat.size = some (100 * 1024 * 1024) →
      validate_audio fp (some pr) ≠
        Except.ok (none, some "File is too large (over 100MB).")) ∧
    (pr.format.bind ProbeFormat.duration = some 1200 →
      validate_audio fp (some pr) ≠
        Except.ok (none, some "File is too long (over 20 minutes).")) := by
  refine ⟨fun h => ?_, fun h => ?_, fun h => ?_, fun h => ?_⟩
  · have hs : probeSizeMB pr = 0 := by simp [probeSizeMB, h]
    simp only [validate_audio]
    rw [if_neg (by rw [hs]; norm_num)]
    split_ifs with hB <;> simp
  · have hd : probeDuration pr = 0 := by simp [probeDuration, h]
    have hB : ¬ probeDuration pr > 20 * 60 := by rw [hd]; norm_num
    simp only [validate_audio, if_neg hB]
    split_ifs <;> simp
  · have hs : probeSizeMB pr = 100 := by norm_num [probeSizeMB, h]
    simp only [validate_audio]
    rw [if_neg (by rw [hs]; norm_num)]
    split_ifs with hB <;> simp
  · have hd : probeDuration pr = 1200 := by simp [probeDuration, h]
    have hB : ¬ probeDuration pr > 20 * 60 := by rw [hd]; norm_num
    simp only [validate_audio, if_neg hB]
    split_ifs <;> simp

/-- Witness for C10: the missing-fields probe and the exact-boundary probe
are both accepted (no rejection message of either kind). -/
theorem validate_audio_missing_or_boundary_witness :
    missingFieldsProbe.format.bind ProbeFormat.size = none ∧
    missingFieldsProbe.format.bind ProbeFormat.duration = none ∧
    boundaryProbe.format.bind ProbeFormat.size = some (100 * 1024 * 1024) ∧
    boundaryProbe.format.bind ProbeFormat.duration = some 1200 ∧
    (validate_audio "a.mp3" (some missingFieldsProbe) ≠
      Except.ok (none, some "File is too large (over 100MB).")) ∧
    (validate_audio "a.mp3" (some missingFieldsProbe) ≠
      Except.ok (none, some "File is too long (over 20 minutes).")) ∧
    (validate_audio "a.mp3" (some boundaryProbe) ≠
      Except.ok (none, some "File is too large (over 100MB).")) ∧
    (validate_audio "a.mp3" (some boundaryProbe) ≠
      Except.ok (none, some "File is too long (over 20 minutes).")) :=
  ⟨rfl, rfl, by norm_num [boundaryProbe], rfl,
   (validate_audio_missing_or_boundary "a.mp3" missingFieldsProbe).1 rfl,
   (validate_audio_missing_or_boundary "a.mp3" missingFieldsProbe).2.1 rfl,
   (validate_audio_missing_or_boundary "a.mp3" boundaryProbe).2.2.1
     (by norm_num [boundaryProbe]),
   (validate_audio_missing_or_boundary "a.mp3" boundaryProbe).2.2.2 rfl⟩

lemma getD_mem {α : Type} {l : List α} {i : ℕ} (d : α) (h : i < l.length) :
    l.getD i d ∈ l := by
  rw [List.getD_eq_getElem?_getD, List.getElem?_eq_getElem h]
  exact List.getElem_mem h

lemma nearestIdx_lt (fac t : ℚ) {n : ℕ} (hn : n ≠ 0) : nearestIdx fac n t < n := by
  have h1 : nearestIdx fac n t ≤ (List.range (n - 1)).length :=
    List.length_filter_le _ _
  rw [List.length_range] at h1
  omega

lemma crema_eq_some (audioLen : ℕ) (out : ChordModelOutput) (fs : ℚ)
    (hop_length : ℕ) (hn : out.chord_bass.length ≠ 0)
    (hp : out.chord_pitch.length = out.chord_bass.length) :
    crema audioLen out fs hop_length =
      some ((List.range (audioLen / hop_length)).map
        (fun (j : ℕ) => out.chord_pitch.getD
          (nearestIdx (fs / 44100 * 4096 / (hop_length : ℚ))
            out.chord_bass.length (j : ℚ)) [])) := by
  unfold crema
  rw [if_neg]
  push_neg
  exact ⟨hn, hp⟩

lemma crema_length {audioLen : ℕ} {out : ChordModelOutput} {fs : ℚ}
    {hop_length : ℕ} {m : List (List ℚ)}
    (h : crema audioLen out fs hop_length = some m) :
    m.length = audioLen / hop_length := by
  simp only [crema] at h
  split_ifs at h
  injection h with h
  subst h
  simp

lemma transpose12_length (m : List (List ℚ)) : (transpose12 m).length = 12 := by
  simp [transpose12]

lemma transpose12_row_length {m : List (List ℚ)} {row : List ℚ}
    (h : row ∈ transpose12 m) : row.length = m.length := by
  rcases List.mem_map.mp h with ⟨c, hc, rfl⟩
  simp

lemma strideIdxs_length (n s : ℕ) : (strideIdxs n s).length = (n + s - 1) / s := by
  simp [strideIdxs]

lemma process_crema_eq (audioLen : ℕ) (out : ChordModelOutput)
    (store : Option CacheFile) {m : List (List ℚ)}
    (h : crema audioLen out 44100 512 = some m) :
    (process_crema audioLen out store).1 =
      some [(transpose12 ((strideIdxs m.length 8).map (fun i => m.getD i [])) ++
             transpose12 ((strideIdxs m.length 8).map
               (fun i => m.getD i []))).take 23] := by
  unfold process_crema
  rw [h]

/-- C4: a harmonic extraction through `crema` on a waveform of `audioLen`
samples with hop length `hop_length` yields (given a consistent, nonempty
chord-model output with 12-dimensional pitch rows) a matrix with exactly
`⌊audioLen / hop_length⌋` rows of 12 entries each. -/
theorem crema_output_shape (audioLen : ℕ) (out : ChordModelOutput) (fs : ℚ)
    (hop_length : ℕ) (hn : out.chord_bass.length ≠ 0)
    (hp : out.chord_pitch.length = out.chord_bass.length)
    (h12 : ∀ row ∈ out.chord_pitch, row.length = 12) :
    ∃ m, crema audioLen out fs hop_length = some m ∧
      m.length = audioLen / hop_length ∧ ∀ row ∈ m, row.length = 12 := by
  refine ⟨_, crema_eq_some audioLen out fs hop_length hn hp, by simp, ?_⟩
  intro row hr
  rcases List.mem_map.mp hr with ⟨j, hj, rfl⟩
  have hidx :
      nearestIdx (fs / 44100 * 4096 / (hop_length : ℚ))
        out.chord_bass.length (j : ℚ) < out.chord_pitch.length := by
    rw [hp]
    exact nearestIdx_lt _ _ hn
  exact h12 _ (getD_mem [] hidx)

/-- Witness for C4 at the scenario numbers of the spec: a 5-second 44100 Hz
waveform (220500 samples) with hop length 512 yields
`220500 / 512 = 430` rows of 12. -/
theorem crema_output_shape_witness :
    oneFrameChord.chord_bass.length ≠ 0 ∧
    oneFrameChord.chord_pitch.length = oneFrameChord.chord_bass.length ∧
    (∀ row ∈ oneFrameChord.chord_pitch, row.length = 12) ∧
    220500 / 512 = 430 ∧
    ∃ m, crema 220500 oneFrameChord 44100 512 = some m ∧
      m.length = 220500 / 512 ∧ ∀ row ∈ m, row.length = 12 :=
  ⟨by decide, by decide, by decide, by decide,
   crema_output_shape 220500 oneFrameChord 44100 512
     (by decide) (by decide) (by decide)⟩

/-- C1 counterexample: for the 4608-sample input (well inside the
100-second bound) with a valid one-frame chord output, the target grid has
`4608 / 512 = 9` frames, the tensor `process_crema` returns has last
dimension `⌈9 / 8⌉ = 2` (stride-8 subsampling keeps frames 0 and 8), while
the claimed `⌊9 / 8⌋` is `1`. -/
theorem process_crema_floor_dim_false :
    4608 ≤ 44100 * MAX_LEN ∧
    oneFrameChord.chord_bass.length ≠ 0 ∧
    oneFrameChord.chord_pitch.length = oneFrameChord.chord_bass.length ∧
    ((process_crema 4608 oneFrameChord none).1.map List.length) = some 1 ∧
    ((((process_crema 4608 oneFrameChord none).1.getD []).headD []).headD
      []).length = 2 ∧
    (4608 / 512) / 8 = 1 := by decide

/-- C1 (amended): for every audio input within the max-duration bound and
every cache state, the tensor `process_crema` returns has shape exactly
`[1, 23, ⌈num_target_frames / 8⌉]` (written `(nwins + 7) / 8`), where
`num_target_frames = ⌊audioLen / 512⌋` is the target frame count of the
harmonic extractor — the stride-8 subsampling `arange(0, n, 8)` keeps `⌈n / 8⌉`
frames, not `⌊n / 8⌋`. -/
theorem process_crema_output_shape (audioLen : ℕ) (out : ChordModelOutput)
    (store : Option CacheFile) (hn : out.chord_bass.length ≠ 0)
    (hp : out.chord_pitch.length = out.chord_bass.length)
    (hdur : audioLen ≤ 44100 * MAX_LEN) :
    ∃ t, (process_crema audioLen out store).1 = some t ∧
      t.length = 1 ∧
      ∀ mat ∈ t, mat.length = 23 ∧
        ∀ row ∈ mat, row.length = (audioLen / 512 + 7) / 8 := by
  have hc := crema_eq_some audioLen out 44100 512 hn hp
  have hmlen := crema_length hc
  rw [process_crema_eq audioLen out store hc]
  refine ⟨_, rfl, by simp, ?_⟩
  intro mat hmat
  rw [List.mem_singleton] at hmat
  subst hmat
  constructor
  · rw [List.length_take, List.length_append, transpose12_length]
    omega
  · intro row hrow
    have hrow2 := List.mem_of_mem_take hrow
    rcases List.mem_append.mp hrow2 with h | h <;>
      rw [transpose12_row_length h, List.length_map, strideIdxs_length,
        hmlen] <;>
      omega

/-- Witness for C1 (amended) at a one-frame input of 512 samples: the
tensor exists with shape `[1, 23, (512 / 512 + 7) / 8]`. -/
theorem process_crema_output_shape_witness :
    oneFrameChord.chord_bass.length ≠ 0 ∧
    oneFrameChord.chord_pitch.length = oneFrameChord.chord_bass.length ∧
    512 ≤ 44100 * MAX_LEN ∧
    ∃ t, (process_crema 512 oneFrameChord none).1 = some t ∧
      t.length = 1 ∧
      ∀ mat ∈ t, mat.length = 23 ∧
        ∀ row ∈ mat, row.length = (512 / 512 + 7) / 8 :=
  ⟨by decide, by decide, by decide,
   process_crema_output_shape 512 oneFrameChord none
     (by decide) (by decide) (by decide)⟩

/-- C8: `process_crema` leaves the on-disk serialized dataset at the keyed
output path unchanged for every input and every initial cache state: it
loads the cache (or starts from empty lists) but never appends to it nor
persists it, returning only the computed tensor. -/
theorem process_crema_store_unchanged (audioLen : ℕ) (out : ChordModelOutput)
    (store : Option CacheFile) :
    (process_crema audioLen out store).2 = store := by
  unfold process_crema
  cases crema audioLen out 44100 512 <;> rfl

/-- C9: the tensor `process_crema` returns does not depend on the contents
of the cache file at the keyed output path: running with the file absent
and with it holding arbitrary data/labels sequences yields equal tensors. -/
theorem process_crema_independent_of_cache (audioLen : ℕ)
    (out : ChordModelOutput) (cache : CacheFile) :
    (process_crema audioLen out (some cache)).1 =
      (process_crema audioLen out none).1 := by
  unfold process_crema
  cases crema audioLen out 44100 512 <;> rfl

end AudioPreprocessing
